import Mathlib

/-!
Shallow embedding of the BSS space-simulator (`src/main.py`) over the reals.

The simulation's quantities (positions, velocities, masses, angles, zoom) are
Python floats; they are modelled here as real numbers.  Every definition below
follows the corresponding line of `src/main.py`; pygame surfaces, image caches,
sounds and other rendering-only state are omitted (the spec treats them as
peripheral I/O glue), keeping exactly the physics and game-logic state the
claims speak about.
-/

open Real

namespace BSS

/-- `WINDOW_WIDTH = 1620` (main.py line 14). -/
def WINDOW_WIDTH : ℝ := 1620

/-- `WINDOW_HEIGHT = 1100` (main.py line 15). -/
def WINDOW_HEIGHT : ℝ := 1100

/-- `WORLD_SCALE = 100000` (main.py line 20). -/
def WORLD_SCALE : ℝ := 100000

/-- `G = 6.67430e-11 * 10` (main.py line 21). -/
noncomputable def G : ℝ := 6.67430e-11 * 10

/-- `TIME_STEP = 100` (main.py line 22). -/
def TIME_STEP : ℝ := 100

/-- `HALF_WIDTH = WINDOW_WIDTH // 2` (main.py line 26). -/
def HALF_WIDTH : ℝ := 810

/-- `HALF_HEIGHT = WINDOW_HEIGHT // 2` (main.py line 27). -/
def HALF_HEIGHT : ℝ := 550

/-- A celestial body (main.py lines 86-95): fixed position in meters, mass in
kg, radius in meters.  The color and render-surface cache are cosmetic and
omitted. -/
structure CelestialBody where
  x : ℝ
  y : ℝ
  mass : ℝ
  radius : ℝ

/-- The physics state of the ship (main.py lines 167-223): position in world
units, velocity in world units per tick, angle in degrees, mass in kg, and the
two thrust constants.  Images and caches are cosmetic and omitted. -/
structure Ship where
  position : ℝ × ℝ
  velocity : ℝ × ℝ
  angle : ℝ
  mass : ℝ
  main_thrust : ℝ
  rcs_thrust : ℝ

/-- `CelestialBody.apply_gravity` (main.py lines 141-164): displacement in
meters, early return when the object is inside the body's radius, otherwise
Newtonian force, acceleration, components, and velocity integration over
`TIME_STEP` rescaled by `WORLD_SCALE`. -/
noncomputable def CelestialBody.apply_gravity (b : CelestialBody) (obj : Ship) : Ship :=
  let dx := b.x - obj.position.1 * WORLD_SCALE
  let dy := b.y - obj.position.2 * WORLD_SCALE
  let distance_squared := dx * dx + dy * dy
  let distance := Real.sqrt distance_squared
  if distance < b.radius then obj
  else
    let force := G * b.mass * obj.mass / distance_squared
    let acc := force / obj.mass
    let acc_x := acc * dx / distance
    let acc_y := acc * dy / distance
    { obj with velocity := (obj.velocity.1 + (acc_x * TIME_STEP) / WORLD_SCALE,
                            obj.velocity.2 + (acc_y * TIME_STEP) / WORLD_SCALE) }

/-- `EARTH` (main.py lines 333-338). -/
noncomputable def EARTH : CelestialBody := { x := 0, y := 0, mass := 5.972e24, radius := 6371e3 }

/-- `MOON` (main.py lines 340-346). -/
noncomputable def MOON : CelestialBody :=
  { x := 384400e3, y := 0, mass := 7.34767309e22, radius := 1737.1e3 }

/-- `SUN` (main.py lines 348-354). -/
noncomputable def SUN : CelestialBody :=
  { x := -149.6e9, y := 0, mass := 1.989e30, radius := 696340e3 }

/-- `MARS` (main.py lines 356-362). -/
noncomputable def MARS : CelestialBody :=
  { x := 225.0e9, y := 0, mass := 6.39e23, radius := 3389.5e3 }

/-- `celestial_bodies = [EARTH, MOON, SUN, MARS]` (main.py line 364). -/
noncomputable def celestial_bodies : List CelestialBody := [EARTH, MOON, SUN, MARS]

/-- `Ship.__init__` (main.py lines 168-223): the LEO parameters, the orbital
velocity `1.5 * sqrt(G * EARTH.mass / orbit_radius)`, the position on the
45-degree ray at `orbit_radius / WORLD_SCALE`, the tangential velocity divided
by `WORLD_SCALE`, the angle in degrees (`math.degrees(orbit_angle)`), and the
mass/thrust constants. -/
noncomputable def Ship.init : Ship :=
  let EARTH_RADIUS : ℝ := 6371e3
  let LEO_ALTITUDE : ℝ := 40000e3
  let orbit_radius := EARTH_RADIUS + LEO_ALTITUDE
  let velocity_multiplier : ℝ := 1.5
  let orbital_velocity := velocity_multiplier * Real.sqrt (G * EARTH.mass / orbit_radius)
  let orbit_angle := Real.pi / 4
  { position := ((orbit_radius / WORLD_SCALE) * Real.cos orbit_angle,
                 (orbit_radius / WORLD_SCALE) * Real.sin orbit_angle),
    velocity := (-orbital_velocity * Real.sin orbit_angle / WORLD_SCALE,
                 orbital_velocity * Real.cos orbit_angle / WORLD_SCALE),
    angle := orbit_angle * 180 / Real.pi,
    mass := 1000,
    main_thrust := 0.1,
    rcs_thrust := 0.05 }

/-- `Ship.check_planet_collision` (main.py lines 225-239): scan the bodies in
order, convert the ship position to meters, and return the first body whose
center is closer than its radius; `none` when no body is that close. -/
noncomputable def Ship.check_planet_collision (s : Ship) :
    List CelestialBody → Option CelestialBody
  | [] => none
  | body :: rest =>
      let obj_x := s.position.1 * WORLD_SCALE
      let obj_y := s.position.2 * WORLD_SCALE
      let dx := body.x - obj_x
      let dy := body.y - obj_y
      let distance := Real.sqrt (dx * dx + dy * dy)
      if distance < body.radius then some body else s.check_planet_collision rest

/-- The center-to-center distance in meters between a body and the ship, as
computed by both `apply_gravity` (main.py lines 143-146) and
`check_planet_collision` (lines 228-234): the ship position is rescaled by
`WORLD_SCALE` and the Euclidean distance to the body center is taken. -/
noncomputable def distM (b : CelestialBody) (s : Ship) : ℝ :=
  Real.sqrt ((b.x - s.position.1 * WORLD_SCALE) * (b.x - s.position.1 * WORLD_SCALE) +
             (b.y - s.position.2 * WORLD_SCALE) * (b.y - s.position.2 * WORLD_SCALE))

/-- Python's float `%` with a positive modulus: `a % m = a - m * floor(a / m)`,
always in `[0, m)`.  Used by `Ship.rotate` (main.py line 254). -/
noncomputable def pymod (a m : ℝ) : ℝ := a - m * ⌊a / m⌋

/-- `Ship.rotate` (main.py lines 253-257): `angle = (angle + angle_change) % 360`.
The rotated-image cache refresh is cosmetic and omitted. -/
noncomputable def Ship.rotate (s : Ship) (angle_change : ℝ) : Ship :=
  { s with angle := pymod (s.angle + angle_change) 360 }

/-- `Ship.move_forward` (main.py lines 259-262): main-thrust impulse along the
current heading, with the screen convention `(+sin, -cos)`. -/
noncomputable def Ship.move_forward (s : Ship) : Ship :=
  let angle_rad := s.angle * Real.pi / 180
  { s with velocity := (s.velocity.1 + s.main_thrust * Real.sin angle_rad,
                        s.velocity.2 - s.main_thrust * Real.cos angle_rad) }

/-- `Ship.apply_rcs` (main.py lines 264-269): rotate the `(dx, dy)` input by
the ship's heading and add it to the velocity scaled by `rcs_thrust`. -/
noncomputable def Ship.apply_rcs (s : Ship) (dx dy : ℝ) : Ship :=
  let angle_rad := s.angle * Real.pi / 180
  let rotated_dx := dx * Real.cos angle_rad - dy * Real.sin angle_rad
  let rotated_dy := dx * Real.sin angle_rad + dy * Real.cos angle_rad
  { s with velocity := (s.velocity.1 + rotated_dx * s.rcs_thrust,
                        s.velocity.2 + rotated_dy * s.rcs_thrust) }

/-- `Ship.update` (main.py lines 271-278): apply gravity from every celestial
body in order, then add the velocity to the position (Euler integration). -/
noncomputable def Ship.update (s : Ship) (bodies : List CelestialBody) : Ship :=
  let s' := bodies.foldl (fun acc b => b.apply_gravity acc) s
  { s' with position := (s'.position.1 + s'.velocity.1, s'.position.2 + s'.velocity.2) }

/-- The keys sampled in one iteration of the game loop (main.py lines
379-429): `keyR` records an `R` key-down event this frame (line 392), the rest
are the held keys polled by `pygame.key.get_pressed()`.  The `N` (cosmetic
image toggle) and quit events do not touch physics state and are omitted. -/
structure FrameInput where
  keyR : Bool
  keyLeft : Bool
  keyRight : Bool
  keyUp : Bool
  keyA : Bool
  keyD : Bool
  keyW : Bool
  keyS : Bool
  keyPlus : Bool
  keyMinus : Bool

/-- The mutable loop state: the player ship, the `game_over` flag (`false` =
Flying, `true` = Destroyed) and `CAMERA_ZOOM`. -/
structure GameState where
  ship : Ship
  game_over : Bool
  zoom : ℝ

/-- The initial loop state (main.py lines 11, 23, 367): a fresh ship,
`game_over = False`, `CAMERA_ZOOM = 1.0`. -/
noncomputable def GameState.init : GameState :=
  { ship := Ship.init, game_over := false, zoom := 1.0 }

/-- The event phase of the loop (main.py lines 391-396): if the ship is
destroyed and `R` is pressed, replace the ship with `Ship()`, clear
`game_over` and reset the zoom to `1.0`; otherwise the state is untouched. -/
noncomputable def handleEvents (inp : FrameInput) (st : GameState) : GameState :=
  if st.game_over && inp.keyR then
    { ship := Ship.init, game_over := false, zoom := 1.0 }
  else st

/-- The ship-control phase (main.py lines 404-419): rotation keys at ±5
degrees, main thrust, then the RCS keys, where `D` overrides `A` and `S`
overrides `W` because the later assignment wins, and `apply_rcs` runs only
when `(dx, dy) ≠ (0, 0)`. -/
noncomputable def applyControls (inp : FrameInput) (s : Ship) : Ship :=
  let s := if inp.keyLeft then s.rotate (-5) else s
  let s := if inp.keyRight then s.rotate 5 else s
  let s := if inp.keyUp then s.move_forward else s
  let dx : ℝ := if inp.keyD then 1 else if inp.keyA then -1 else 0
  let dy : ℝ := if inp.keyS then 1 else if inp.keyW then -1 else 0
  if dx ≠ 0 ∨ dy ≠ 0 then s.apply_rcs dx dy else s

/-- The zoom-control phase (main.py lines 421-429): multiply by `1 + 0.2` on
zoom-in, divide by `1 + 0.2` on zoom-out, then clamp to `[0.1, 10]` with
`max(0.1, min(zoom, 10))`. -/
noncomputable def zoomStep (inp : FrameInput) (zoom : ℝ) : ℝ :=
  let zoom := if inp.keyPlus then zoom * (1 + 0.2) else zoom
  let zoom := if inp.keyMinus then zoom / (1 + 0.2) else zoom
  max 0.1 (min zoom 10)

/-- One iteration of the game loop (main.py lines 379-438), restricted to the
state the claims speak about: events, then — only when not game over — the
held-key controls, the zoom update, `player_ship.update()`, and the collision
check that sets `game_over`.  Drawing reads the state and is omitted. -/
noncomputable def frameStep (inp : FrameInput) (st : GameState) : GameState :=
  let st := handleEvents inp st
  if st.game_over then st
  else
    let ship := applyControls inp st.ship
    let zoom := zoomStep inp st.zoom
    let ship := ship.update celestial_bodies
    let collided := ship.check_planet_collision celestial_bodies
    { ship := ship, game_over := collided.isSome, zoom := zoom }

/-- Run the loop over a list of per-frame inputs. -/
noncomputable def runFrames (inputs : List FrameInput) (st : GameState) : GameState :=
  inputs.foldl (fun acc i => frameStep i acc) st

/-- The world-to-screen projection used by both draw routines
(`CelestialBody.draw`, main.py lines 128-129, with `self.x / WORLD_SCALE` as
the world position, and `Ship.draw`, lines 282-283):
`(world - camera) * zoom + halfScreen`. -/
noncomputable def toScreen (world camera : ℝ × ℝ) (zoom : ℝ) : ℝ × ℝ :=
  ((world.1 - camera.1) * zoom + HALF_WIDTH,
   (world.2 - camera.2) * zoom + HALF_HEIGHT)

/-- Modelled from the spec: the inverse of the `toScreen` projection (the
repository has no explicit inverse; §8 of the spec postulates one for the
round-trip property): subtract the half-screen offset, divide by the zoom, add
the camera position back. -/
noncomputable def fromScreen (pixel camera : ℝ × ℝ) (zoom : ℝ) : ℝ × ℝ :=
  ((pixel.1 - HALF_WIDTH) / zoom + camera.1,
   (pixel.2 - HALF_HEIGHT) / zoom + camera.2)

/-- The screen position computed by `CelestialBody.draw` (main.py lines
128-129). -/
noncomputable def CelestialBody.screen_pos (b : CelestialBody) (camera_pos : ℝ × ℝ)
    (zoom : ℝ) : ℝ × ℝ :=
  ((b.x / WORLD_SCALE - camera_pos.1) * zoom + HALF_WIDTH,
   (b.y / WORLD_SCALE - camera_pos.2) * zoom + HALF_HEIGHT)

/-- The screen position computed by `Ship.draw` (main.py lines 282-283). -/
noncomputable def Ship.screen_pos (s : Ship) (camera_pos : ℝ × ℝ) (zoom : ℝ) : ℝ × ℝ :=
  ((s.position.1 - camera_pos.1) * zoom + HALF_WIDTH,
   (s.position.2 - camera_pos.2) * zoom + HALF_HEIGHT)

/-- The ship the loop's collision check examines during a Flying frame: the
ship after the held-key controls and the physics `update()` (main.py lines
404-435). -/
noncomputable def frameShip (inp : FrameInput) (st : GameState) : Ship :=
  (applyControls inp st.ship).update celestial_bodies

/-! Concrete fixtures used by the witness theorems. -/

/-- A ship parked at the world origin (the center of `EARTH`), with the
constructor's mass and thrust constants. -/
noncomputable def shipAtOrigin : Ship :=
  { position := (0, 0), velocity := (0, 0), angle := 0, mass := 1000,
    main_thrust := 0.1, rcs_thrust := 0.05 }

/-- A ship parked on the positive x-axis at world coordinate 100, i.e. `1e7`
meters from the center of `EARTH` (outside its radius). -/
noncomputable def shipAt100 : Ship :=
  { position := (100, 0), velocity := (0, 0), angle := 0, mass := 1000,
    main_thrust := 0.1, rcs_thrust := 0.05 }

/-- A destroyed game state. -/
noncomputable def stDestroyed : GameState :=
  { ship := shipAt100, game_over := true, zoom := 5 }

/-- A flying game state. -/
noncomputable def stFlying : GameState :=
  { ship := shipAt100, game_over := false, zoom := 1 }

/-- A frame with no key pressed. -/
def inpNone : FrameInput :=
  { keyR := false, keyLeft := false, keyRight := false, keyUp := false,
    keyA := false, keyD := false, keyW := false, keyS := false,
    keyPlus := false, keyMinus := false }

/-- A frame with only the restart key pressed. -/
def inpR : FrameInput := { inpNone with keyR := true }

end BSS

namespace BSS

/-- C6: if the center distance in meters is strictly below the body's radius —
including distance exactly zero — `apply_gravity` returns the object
unchanged, so its velocity is untouched and the division by the squared
distance is never reached. -/
theorem C6_inside_radius_gravity_noop (b : CelestialBody) (s : Ship)
    (h : distM b s < b.radius) : b.apply_gravity s = s := by
  simp only [distM] at h
  simp only [CelestialBody.apply_gravity]
  rw [if_pos h]

/-- Witness for C6 at a concrete input with distance exactly zero: a ship at
the center of `EARTH` is left unchanged by Earth's gravity. -/
theorem C6_inside_radius_gravity_noop_witness :
    distM EARTH shipAtOrigin < EARTH.radius ∧
      EARTH.apply_gravity shipAtOrigin = shipAtOrigin := by
  have h : distM EARTH shipAtOrigin < EARTH.radius := by
    simp only [distM, EARTH, shipAtOrigin, WORLD_SCALE]
    norm_num
  exact ⟨h, C6_inside_radius_gravity_noop EARTH shipAtOrigin h⟩

/-- C10: for every heading and every RCS input `(dx, dy)`, the squared
magnitude of the velocity increment added by `apply_rcs` is exactly
`rcs_thrust² * (dx² + dy²)`: rotating the input by the heading preserves its
strength. -/
theorem C10_rcs_impulse_magnitude (s : Ship) (dx dy : ℝ) :
    ((s.apply_rcs dx dy).velocity.1 - s.velocity.1) ^ 2 +
      ((s.apply_rcs dx dy).velocity.2 - s.velocity.2) ^ 2 =
      s.rcs_thrust ^ 2 * (dx ^ 2 + dy ^ 2) := by
  have h := Real.sin_sq_add_cos_sq (s.angle * Real.pi / 180)
  simp only [Ship.apply_rcs]
  linear_combination (s.rcs_thrust ^ 2 * (dx ^ 2 + dy ^ 2)) * h

/-- C9: the screen projection `(world - camera) * zoom + halfScreen` used by
both draw routines is invertible: for every zoom in `[0.1, 10]` (in
particular nonzero) and every camera position, `fromScreen` recovers the
world position exactly, and `toScreen` agrees with the positions computed by
`CelestialBody.draw` (with `x / WORLD_SCALE` as the world position) and
`Ship.draw`. -/
theorem C9_projection_roundtrip (w c : ℝ × ℝ) (z : ℝ) (b : CelestialBody) (s : Ship)
    (hz1 : 0.1 ≤ z) (hz2 : z ≤ 10) :
    fromScreen (toScreen w c z) c z = w ∧
      b.screen_pos c z = toScreen (b.x / WORLD_SCALE, b.y / WORLD_SCALE) c z ∧
      s.screen_pos c z = toScreen s.position c z := by
  have hz : z ≠ 0 := by intro h; rw [h] at hz1; norm_num at hz1
  refine ⟨?_, rfl, rfl⟩
  simp only [fromScreen, toScreen]
  ext
  · simp only
    field_simp
  · simp only
    field_simp

/-- Witness for C9 at a concrete zoom, camera, and world position. -/
theorem C9_projection_roundtrip_witness :
    (0.1 : ℝ) ≤ 2 ∧ (2 : ℝ) ≤ 10 ∧
      (fromScreen (toScreen (3, 4) (7, -5) 2) (7, -5) 2 = (3, 4) ∧
        EARTH.screen_pos (7, -5) 2 = toScreen (EARTH.x / WORLD_SCALE, EARTH.y / WORLD_SCALE) (7, -5) 2 ∧
        shipAtOrigin.screen_pos (7, -5) 2 = toScreen shipAtOrigin.position (7, -5) 2) :=
  ⟨by norm_num, by norm_num,
    C9_projection_roundtrip (3, 4) (7, -5) 2 EARTH shipAtOrigin (by norm_num) (by norm_num)⟩

/-- C5: pressing `R` restarts only when the ship is destroyed, and the restart
returns exactly the initial loop state: the ship rebuilt by the initial
construction, the Flying state, and zoom `1.0`.  When the ship is still
flying, the `R` press leaves the state untouched. -/
theorem C5_restart_only_when_destroyed (st : GameState) (inp : FrameInput)
    (hr : inp.keyR = true) :
    handleEvents inp st = if st.game_over = true then GameState.init else st := by
  simp only [handleEvents, GameState.init, hr]
  cases h : st.game_over <;> simp

/-- Witness for C5: a destroyed state with a displaced ship and zoom 5 is
reset to the initial state by the `R` press. -/
theorem C5_restart_only_when_destroyed_witness :
    handleEvents inpR stDestroyed =
      if stDestroyed.game_over = true then GameState.init else stDestroyed :=
  C5_restart_only_when_destroyed stDestroyed inpR rfl

/-- C4: while the ship is destroyed and no restart is pressed, every loop
iteration leaves the entire state unchanged — rotation, thrust, RCS, zoom and
`update()` are all skipped — so any number of frames moves neither the ship's
position, velocity, nor angle, and the state stays Destroyed. -/
theorem C4_destroyed_state_frozen (st : GameState) (hgo : st.game_over = true)
    (inputs : List FrameInput) (hr : ∀ i ∈ inputs, i.keyR = false) :
    runFrames inputs st = st := by
  induction inputs with
  | nil => rfl
  | cons i rest ih =>
      have hi : i.keyR = false := hr i (List.mem_cons_self i rest)
      have hstep : frameStep i st = st := by
        simp [frameStep, handleEvents, hi, hgo]
      simp only [runFrames, List.foldl_cons]
      rw [hstep]
      exact ih fun j hj => hr j (List.mem_cons_of_mem i hj)

/-- Witness for C4: three no-input frames on a destroyed state change
nothing. -/
theorem C4_destroyed_state_frozen_witness :
    runFrames [inpNone, inpNone, inpNone] stDestroyed = stDestroyed :=
  C4_destroyed_state_frozen stDestroyed rfl [inpNone, inpNone, inpNone]
    (by intro i hi; simp only [List.mem_cons, List.not_mem_nil, or_false] at hi
        rcases hi with rfl | rfl | rfl <;> rfl)

/-! Helper lemmas shared by several claims. -/

theorem pymod_eq_fract (a m : ℝ) (hm : m ≠ 0) : pymod a m = m * Int.fract (a / m) := by
  unfold pymod Int.fract
  field_simp

theorem pymod_nonneg (a : ℝ) {m : ℝ} (hm : 0 < m) : 0 ≤ pymod a m := by
  rw [pymod_eq_fract a m hm.ne.symm]
  exact mul_nonneg hm.le (Int.fract_nonneg _)

theorem pymod_lt (a : ℝ) {m : ℝ} (hm : 0 < m) : pymod a m < m := by
  rw [pymod_eq_fract a m hm.ne.symm]
  calc m * Int.fract (a / m) < m * 1 :=
        (mul_lt_mul_left hm).mpr (Int.fract_lt_one _)
    _ = m := mul_one m

theorem pymod_add_cancel (a : ℝ) : pymod (a + 360) 360 = pymod a 360 := by
  unfold pymod
  have h : (a + 360) / 360 = a / 360 + 1 := by rw [add_div]; norm_num
  rw [h, Int.floor_add_one]
  push_cast
  ring

theorem rotate_angle_mem (s : Ship) (δ : ℝ) :
    0 ≤ (s.rotate δ).angle ∧ (s.rotate δ).angle < 360 :=
  ⟨pymod_nonneg _ (by norm_num), pymod_lt _ (by norm_num)⟩

theorem init_angle : Ship.init.angle = 45 := by
  simp only [Ship.init]
  field_simp
  ring

theorem apply_gravity_angle (b : CelestialBody) (s : Ship) :
    (b.apply_gravity s).angle = s.angle := by
  simp only [CelestialBody.apply_gravity]
  split <;> rfl

theorem foldl_gravity_angle (bodies : List CelestialBody) (s : Ship) :
    (bodies.foldl (fun acc b => b.apply_gravity acc) s).angle = s.angle := by
  induction bodies generalizing s with
  | nil => rfl
  | cons b rest ih => rw [List.foldl_cons, ih, apply_gravity_angle]

theorem update_angle (s : Ship) (bodies : List CelestialBody) :
    (s.update bodies).angle = s.angle := by
  simp only [Ship.update]
  exact foldl_gravity_angle bodies s

theorem applyControls_angle_mem (inp : FrameInput) (s : Ship)
    (h0 : 0 ≤ s.angle) (h1 : s.angle < 360) :
    0 ≤ (applyControls inp s).angle ∧ (applyControls inp s).angle < 360 := by
  simp only [applyControls, Ship.move_forward, Ship.apply_rcs]
  split_ifs <;>
    first
      | exact ⟨h0, h1⟩
      | exact rotate_angle_mem _ _

theorem zoomStep_mem (inp : FrameInput) (z : ℝ) :
    0.1 ≤ zoomStep inp z ∧ zoomStep inp z ≤ 10 :=
  ⟨le_max_left _ _, max_le (by norm_num) (min_le_right _ _)⟩

theorem runFrames_inv (P : GameState → Prop)
    (hP : ∀ inp st, P st → P (frameStep inp st)) :
    ∀ (inputs : List FrameInput) (st : GameState), P st → P (runFrames inputs st) := by
  intro inputs
  induction inputs with
  | nil => intro st h; exact h
  | cons i rest ih =>
      intro st h
      simp only [runFrames, List.foldl_cons]
      exact ih (frameStep i st) (hP i st h)

theorem frameStep_zoom_mem (inp : FrameInput) (st : GameState)
    (h1 : 0.1 ≤ st.zoom) (h2 : st.zoom ≤ 10) :
    0.1 ≤ (frameStep inp st).zoom ∧ (frameStep inp st).zoom ≤ 10 := by
  simp only [frameStep, handleEvents]
  by_cases hb : (st.game_over && inp.keyR) = true
  · simp only [hb, if_true]
    simp only [if_neg (Bool.false_ne_true)]
    exact zoomStep_mem inp 1.0
  · simp only [hb, if_false, Bool.not_eq_true] at *
    simp only [hb, Bool.false_eq_true, if_false]
    by_cases hgo : st.game_over = true
    · simp only [hgo, if_true]
      exact ⟨h1, h2⟩
    · simp only [Bool.not_eq_true] at hgo
      simp only [hgo, Bool.false_eq_true, if_false]
      exact zoomStep_mem inp st.zoom

theorem frameStep_angle_mem (inp : FrameInput) (st : GameState)
    (h0 : 0 ≤ st.ship.angle) (h1 : st.ship.angle < 360) :
    0 ≤ (frameStep inp st).ship.angle ∧ (frameStep inp st).ship.angle < 360 := by
  simp only [frameStep, handleEvents]
  by_cases hb : (st.game_over && inp.keyR) = true
  · simp only [hb, if_true]
    simp only [if_neg (Bool.false_ne_true)]
    rw [update_angle]
    exact applyControls_angle_mem inp Ship.init (by rw [init_angle]; norm_num)
      (by rw [init_angle]; norm_num)
  · simp only [hb, Bool.not_eq_true] at *
    simp only [hb, Bool.false_eq_true, if_false]
    by_cases hgo : st.game_over = true
    · simp only [hgo, if_true]
      exact ⟨h0, h1⟩
    · simp only [Bool.not_eq_true] at hgo
      simp only [hgo, Bool.false_eq_true, if_false]
      rw [update_angle]
      exact applyControls_angle_mem inp st.ship h0 h1

theorem check_collision_eq_none (s : Ship) (bodies : List CelestialBody)
    (h : ∀ b ∈ bodies, ¬ distM b s < b.radius) :
    s.check_planet_collision bodies = none := by
  induction bodies with
  | nil => rfl
  | cons b rest ih =>
      have hb := h b (List.mem_cons_self b rest)
      simp only [distM] at hb
      simp only [Ship.check_planet_collision]
      rw [if_neg hb]
      exact ih fun b' hb' => h b' (List.mem_cons_of_mem b hb')

theorem check_collision_finds_first (s : Ship) (bodies : List CelestialBody)
    (h : ∃ b ∈ bodies, distM b s < b.radius) :
    ∃ b ∈ bodies, s.check_planet_collision bodies = some b ∧ distM b s < b.radius := by
  induction bodies with
  | nil => simp at h
  | cons b rest ih =>
      by_cases hb : distM b s < b.radius
      · refine ⟨b, List.mem_cons_self b rest, ?_, hb⟩
        have hb' := hb
        simp only [distM] at hb'
        simp only [Ship.check_planet_collision]
        rw [if_pos hb']
      · obtain ⟨b', hmem, hlt⟩ := h
        rcases List.mem_cons.mp hmem with rfl | hrest
        · exact absurd hlt hb
        · obtain ⟨b'', hmem'', heq'', hlt''⟩ := ih ⟨b', hrest, hlt⟩
          refine ⟨b'', List.mem_cons_of_mem b hmem'', ?_, hlt''⟩
          have hb' := hb
          simp only [distM] at hb'
          simp only [Ship.check_planet_collision]
          rw [if_neg hb']
          exact heq''

theorem frameStep_flying_eq (inp : FrameInput) (st : GameState)
    (hgo : st.game_over = false) :
    frameStep inp st =
      { ship := frameShip inp st,
        game_over := ((frameShip inp st).check_planet_collision celestial_bodies).isSome,
        zoom := zoomStep inp st.zoom } := by
  simp only [frameStep, handleEvents, frameShip, hgo, Bool.false_and]
  simp [hgo]

/-- C3: during a Flying frame, if the ship examined by the collision check is
closer than some body's radius (distances in meters, positions rescaled by
`WORLD_SCALE`), then `check_planet_collision` returns a colliding body and
the frame performs the one transition Flying→Destroyed; if no body is that
close, it returns `none` and the state stays Flying. -/
theorem C3_collision_drives_transition (st : GameState) (inp : FrameInput)
    (hgo : st.game_over = false) :
    ((∃ b ∈ celestial_bodies, distM b (frameShip inp st) < b.radius) →
        (∃ b ∈ celestial_bodies,
            (frameShip inp st).check_planet_collision celestial_bodies = some b ∧
              distM b (frameShip inp st) < b.radius) ∧
          (frameStep inp st).game_over = true) ∧
      ((∀ b ∈ celestial_bodies, ¬ distM b (frameShip inp st) < b.radius) →
        (frameShip inp st).check_planet_collision celestial_bodies = none ∧
          (frameStep inp st).game_over = false) := by
  rw [frameStep_flying_eq inp st hgo]
  constructor
  · intro h
    obtain ⟨b, hmem, heq, hlt⟩ := check_collision_finds_first _ _ h
    refine ⟨⟨b, hmem, heq, hlt⟩, ?_⟩
    obtain ⟨b', hmem', heq', hlt'⟩ := check_collision_finds_first _ celestial_bodies h
    simp [heq']
  · intro h
    have hnone := check_collision_eq_none _ celestial_bodies h
    exact ⟨hnone, by simp [hnone]⟩

/-- Witness for C3 at a concrete Flying state. -/
theorem C3_collision_drives_transition_witness :
    ((∃ b ∈ celestial_bodies, distM b (frameShip inpNone stFlying) < b.radius) →
        (∃ b ∈ celestial_bodies,
            (frameShip inpNone stFlying).check_planet_collision celestial_bodies = some b ∧
              distM b (frameShip inpNone stFlying) < b.radius) ∧
          (frameStep inpNone stFlying).game_over = true) ∧
      ((∀ b ∈ celestial_bodies, ¬ distM b (frameShip inpNone stFlying) < b.radius) →
        (frameShip inpNone stFlying).check_planet_collision celestial_bodies = none ∧
          (frameStep inpNone stFlying).game_over = false) :=
  C3_collision_drives_transition stFlying inpNone rfl

/-- C1: for every body and every ship whose center distance in meters is at
least the body's radius (with the body's physical data: nonnegative mass,
positive radius, and the ship's nonzero mass), `apply_gravity` adds to each
velocity component exactly the acceleration component
`(G * bodyMass / d²) * (Δ/d)` times `TIME_STEP / WORLD_SCALE` — an expression
free of the ship's own mass — and the two acceleration components have
magnitude exactly `G * bodyMass / d²`. -/
theorem C1_gravity_impulse (b : CelestialBody) (s : Ship)
    (hm : s.mass ≠ 0) (hM : 0 ≤ b.mass) (hr0 : 0 < b.radius)
    (hdr : b.radius ≤ distM b s) :
    (b.apply_gravity s).velocity.1 =
        s.velocity.1 +
          G * b.mass / distM b s ^ 2 * ((b.x - s.position.1 * WORLD_SCALE) / distM b s) *
            TIME_STEP / WORLD_SCALE ∧
      (b.apply_gravity s).velocity.2 =
        s.velocity.2 +
          G * b.mass / distM b s ^ 2 * ((b.y - s.position.2 * WORLD_SCALE) / distM b s) *
            TIME_STEP / WORLD_SCALE ∧
      Real.sqrt
          ((G * b.mass / distM b s ^ 2 * ((b.x - s.position.1 * WORLD_SCALE) / distM b s)) ^ 2 +
            (G * b.mass / distM b s ^ 2 * ((b.y - s.position.2 * WORLD_SCALE) / distM b s)) ^ 2) =
        G * b.mass / distM b s ^ 2 := by
  have hd0 : 0 < distM b s := lt_of_lt_of_le hr0 hdr
  have hG : (0 : ℝ) < G := by norm_num [G]
  simp only [distM] at hd0 hdr ⊢
  set dx := b.x - s.position.1 * WORLD_SCALE with hdx
  set dy := b.y - s.position.2 * WORLD_SCALE with hdy
  set d := Real.sqrt (dx * dx + dy * dy) with hd
  have hq0 : 0 ≤ dx * dx + dy * dy := add_nonneg (mul_self_nonneg dx) (mul_self_nonneg dy)
  have hsq : d ^ 2 = dx * dx + dy * dy := Real.sq_sqrt hq0
  have hdne : d ≠ 0 := hd0.ne.symm
  have hqne : dx * dx + dy * dy ≠ 0 := by rw [← hsq]; exact pow_ne_zero 2 hdne
  have hWS : WORLD_SCALE ≠ 0 := by norm_num [WORLD_SCALE]
  have hA : 0 ≤ G * b.mass / d ^ 2 := div_nonneg (mul_nonneg hG.le hM) (sq_nonneg d)
  simp only [CelestialBody.apply_gravity, ← hdx, ← hdy, ← hd]
  rw [if_neg (not_lt.mpr hdr)]
  refine ⟨?_, ?_, ?_⟩
  · simp only
    rw [hsq]
    field_simp
    ring
  · simp only
    rw [hsq]
    field_simp
    ring
  · have harg :
        (G * b.mass / d ^ 2 * (dx / d)) ^ 2 + (G * b.mass / d ^ 2 * (dy / d)) ^ 2 =
          (G * b.mass / d ^ 2) ^ 2 := by
      have h1 : (G * b.mass / d ^ 2 * (dx / d)) ^ 2 + (G * b.mass / d ^ 2 * (dy / d)) ^ 2 =
          (G * b.mass / d ^ 2) ^ 2 * ((dx * dx + dy * dy) / d ^ 2) := by ring
      rw [h1, ← hsq, div_self (pow_ne_zero 2 hdne), mul_one]
    rw [harg, Real.sqrt_sq hA]

/-- Witness for C1: `EARTH` attracting a unit ship parked `1e7` meters from
its center, outside its radius. -/
theorem C1_gravity_impulse_witness :
    (EARTH.apply_gravity shipAt100).velocity.1 =
        shipAt100.velocity.1 +
          G * EARTH.mass / distM EARTH shipAt100 ^ 2 *
              ((EARTH.x - shipAt100.position.1 * WORLD_SCALE) / distM EARTH shipAt100) *
            TIME_STEP / WORLD_SCALE ∧
      (EARTH.apply_gravity shipAt100).velocity.2 =
        shipAt100.velocity.2 +
          G * EARTH.mass / distM EARTH shipAt100 ^ 2 *
              ((EARTH.y - shipAt100.position.2 * WORLD_SCALE) / distM EARTH shipAt100) *
            TIME_STEP / WORLD_SCALE ∧
      Real.sqrt
          ((G * EARTH.mass / distM EARTH shipAt100 ^ 2 *
              ((EARTH.x - shipAt100.position.1 * WORLD_SCALE) / distM EARTH shipAt100)) ^ 2 +
            (G * EARTH.mass / distM EARTH shipAt100 ^ 2 *
              ((EARTH.y - shipAt100.position.2 * WORLD_SCALE) / distM EARTH shipAt100)) ^ 2) =
        G * EARTH.mass / distM EARTH shipAt100 ^ 2 := by
  have hdist : distM EARTH shipAt100 = 1e7 := by
    have h : (EARTH.x - shipAt100.position.1 * WORLD_SCALE) *
          (EARTH.x - shipAt100.position.1 * WORLD_SCALE) +
        (EARTH.y - shipAt100.position.2 * WORLD_SCALE) *
          (EARTH.y - shipAt100.position.2 * WORLD_SCALE) = ((1e7 : ℝ)) ^ 2 := by
      norm_num [EARTH, shipAt100, WORLD_SCALE]
    unfold distM
    rw [h, Real.sqrt_sq (by norm_num)]
  exact C1_gravity_impulse EARTH shipAt100 (by norm_num [shipAt100])
    (by norm_num [EARTH]) (by norm_num [EARTH]) (by rw [hdist]; norm_num [EARTH])

/-- C2 (supporting theorem for the code bug): the ship's initial distance from
Earth's center is the orbit radius `6371e3 + 40000e3` meters, its initial
speed in meters per second (the stored world-unit velocity rescaled by
`WORLD_SCALE`) is `1.5` times the circular-orbit speed
`sqrt(G * EARTH.mass / r)`, and the kinetic energy of that speed strictly
exceeds the escape threshold `G * EARTH.mass / r` — the specific orbital
energy is positive, so the two-body trajectory is unbounded rather than a
closed orbit of approximately constant radius. -/
theorem C2_initial_speed_exceeds_escape :
    distM EARTH Ship.init = 6371e3 + 40000e3 ∧
      Real.sqrt ((Ship.init.velocity.1 * WORLD_SCALE) ^ 2 +
          (Ship.init.velocity.2 * WORLD_SCALE) ^ 2) =
        1.5 * Real.sqrt (G * EARTH.mass / (6371e3 + 40000e3)) ∧
      (1.5 * Real.sqrt (G * EARTH.mass / (6371e3 + 40000e3))) ^ 2 / 2 >
        G * EARTH.mass / (6371e3 + 40000e3) := by
  have hcs := Real.sin_sq_add_cos_sq (Real.pi / 4)
  have hWS : WORLD_SCALE ≠ 0 := by norm_num [WORLD_SCALE]
  have hX : (0 : ℝ) < G * EARTH.mass / (6371e3 + 40000e3) := by norm_num [G, EARTH]
  have hsqrt : ∀ A R : ℝ, 0 ≤ R → A = R ^ 2 → Real.sqrt A = R := by
    intro A R h0 hA
    rw [hA, Real.sqrt_sq h0]
  refine ⟨?_, ?_, ?_⟩
  · simp only [distM, Ship.init, EARTH]
    refine hsqrt _ _ (by norm_num) ?_
    set cc := Real.cos (Real.pi / 4)
    set ss := Real.sin (Real.pi / 4)
    field_simp
    linear_combination ((6371e3 + 40000e3 : ℝ)) ^ 2 * hcs
  · simp only [Ship.init, EARTH]
    refine hsqrt _ _ (mul_nonneg (by norm_num) (Real.sqrt_nonneg _)) ?_
    set vv := Real.sqrt (G * 5.972e24 / (6371e3 + 40000e3))
    set cc := Real.cos (Real.pi / 4)
    set ss := Real.sin (Real.pi / 4)
    field_simp
    linear_combination (1.5 * vv * WORLD_SCALE) ^ 2 * hcs
  · have hs := Real.sq_sqrt hX.le
    nlinarith [hX, hs, Real.sqrt_nonneg (G * EARTH.mass / (6371e3 + 40000e3))]

/-- C7: starting from the initial zoom of `1.0`, after every frame of any
input sequence — in particular any sequence of zoom-in (`* 1.2`) and zoom-out
(`/ 1.2`) key holds — the camera zoom stays in `[0.1, 10]`, because the loop
clamps it with `max(0.1, min(zoom, 10))` and a restart resets it to `1.0`. -/
theorem C7_zoom_bounded (inputs : List FrameInput) :
    0.1 ≤ (runFrames inputs GameState.init).zoom ∧
      (runFrames inputs GameState.init).zoom ≤ 10 := by
  refine runFrames_inv (fun st => 0.1 ≤ st.zoom ∧ st.zoom ≤ 10) ?_ inputs GameState.init ?_
  · intro inp st h
    exact frameStep_zoom_mem inp st h.1 h.2
  · constructor <;> norm_num [GameState.init]

/-- C8: `rotate` sets the angle to `(angle + delta) mod 360`, hence the angle
is in `[0, 360)` after any rotation, `rotate(360)` produces the same angle as
`rotate(0)`, and along every input sequence from the initial state the angle
stays normalized to `[0, 360)`. -/
theorem C8_angle_normalized :
    (∀ (s : Ship) (δ : ℝ),
        (s.rotate δ).angle = pymod (s.angle + δ) 360 ∧
          0 ≤ (s.rotate δ).angle ∧ (s.rotate δ).angle < 360 ∧
          (s.rotate 360).angle = (s.rotate 0).angle) ∧
      ∀ inputs : List FrameInput,
        0 ≤ (runFrames inputs GameState.init).ship.angle ∧
          (runFrames inputs GameState.init).ship.angle < 360 := by
  constructor
  · intro s δ
    refine ⟨rfl, (rotate_angle_mem s δ).1, (rotate_angle_mem s δ).2, ?_⟩
    show pymod (s.angle + 360) 360 = pymod (s.angle + 0) 360
    rw [add_zero, pymod_add_cancel]
  · intro inputs
    refine runFrames_inv (fun st => 0 ≤ st.ship.angle ∧ st.ship.angle < 360) ?_
      inputs GameState.init ?_
    · intro inp st h
      exact frameStep_angle_mem inp st h.1 h.2
    · constructor <;> rw [show GameState.init.ship = Ship.init from rfl, init_angle] <;> norm_num

end BSS
